import Mathlib

/-!
Verification of the Cricbuzz-LiveStats data-access layer and query catalog.

This file is a shallow embedding of `utils/database_manager.py` (class
`DatabaseManager`) and `utils/sql_queries.py` (class `SQLQueries`).

Modelling choices, stated once:
* The SQLite store is a `DBState`: four optional tables (absent table =
  dropped / not yet created).  A table holds its AUTOINCREMENT counter
  (`nextId`, SQLite starts at 1) and an ordered list of rows; a row is its
  integer primary key plus an association list over the non-id schema
  columns, in schema order.
* Values are `Val`: SQLite INTEGER / REAL / TEXT / NULL.  REAL is modelled
  as `Rat` (the sample data uses exact decimal literals).
* Exceptions are the `Except DBErr` monad.  `Env.connectOk` models whether
  `sqlite3.connect` succeeds (disk unavailable etc.); a Python
  `try/except` block around an operation body becomes a `match` on the
  core computation that maps `.error` to the operation's documented safe
  return value.  Because each operation commits once at the end of its
  single connection, an exception discards all of that operation's writes,
  so the catching wrapper returns the caller's original state.
* `execute_query` receives SQL as a small AST (`SQL`) covering the
  statement shapes actually issued against it by the properties under
  verification (SELECT * ... WHERE id = ?, SELECT COUNT(*)).
* `cursor.execute` on an INSERT whose field map sets the `id` column is
  modelled as an error (every INSERT the application issues supplies only
  non-id columns).  An UPDATE may set `id`: the source builds
  `SET id = ?` and SQLite executes it against the INTEGER PRIMARY KEY
  (rowid alias), so `update_record` models that path, raising only where
  SQLite would (non-integer bound value, PRIMARY KEY collision).
-/

inductive Val where
  | int : Int → Val
  | real : Rat → Val
  | str : String → Val
  | null : Val
deriving DecidableEq

/-- Default behaviour of a column when an INSERT omits it. -/
inductive Dflt where
  | required          -- NOT NULL and no DEFAULT: omitting it is an error
  | nullable          -- no DEFAULT: omitting it stores NULL
  | val : Val → Dflt  -- DEFAULT <literal>
  | currentTimestamp  -- DEFAULT CURRENT_TIMESTAMP
deriving DecidableEq

structure ColumnDef where
  name : String
  dflt : Dflt
deriving DecidableEq

structure Row where
  id : Int
  fields : List (String × Val)
deriving DecidableEq

structure Table where
  nextId : Int
  rows : List Row
deriving DecidableEq

structure DBState where
  players : Option Table
  «matches» : Option Table
  series : Option Table
  player_performances : Option Table
deriving DecidableEq

/-- Environment of one call: whether connections succeed, and the clock
used for `CURRENT_TIMESTAMP`. -/
structure Env where
  connectOk : Bool
  now : String

inductive DBErr where
  | err
deriving DecidableEq

def connect (env : Env) : Except DBErr Unit :=
  if env.connectOk then .ok () else .error .err

def emptyState : DBState := ⟨none, none, none, none⟩

def lookupTable (s : DBState) : String → Except DBErr Table
  | "players" => match s.players with | some tb => .ok tb | none => .error .err
  | "matches" => match s.«matches» with | some tb => .ok tb | none => .error .err
  | "series" => match s.series with | some tb => .ok tb | none => .error .err
  | "player_performances" =>
      match s.player_performances with | some tb => .ok tb | none => .error .err
  | _ => .error .err

def setTable (s : DBState) (t : String) (tb : Table) : DBState :=
  if t = "players" then { s with players := some tb }
  else if t = "matches" then { s with «matches» := some tb }
  else if t = "series" then { s with series := some tb }
  else if t = "player_performances" then { s with player_performances := some tb }
  else s

def rowsOr (o : Option Table) : List Row :=
  match o with
  | some tb => tb.rows
  | none => []

/-- Schema of `players` (non-id columns), from the CREATE TABLE statement. -/
def playersSchema : List ColumnDef :=
  [⟨"name", .required⟩, ⟨"country", .nullable⟩, ⟨"playing_role", .nullable⟩,
   ⟨"batting_style", .nullable⟩, ⟨"bowling_style", .nullable⟩,
   ⟨"total_runs", .val (.int 0)⟩, ⟨"batting_average", .val (.real 0)⟩,
   ⟨"centuries", .val (.int 0)⟩, ⟨"wickets_taken", .val (.int 0)⟩,
   ⟨"bowling_average", .val (.real 0)⟩, ⟨"economy_rate", .val (.real 0)⟩,
   ⟨"catches", .val (.int 0)⟩, ⟨"stumpings", .val (.int 0)⟩,
   ⟨"matches_played", .val (.int 0)⟩, ⟨"created_at", .currentTimestamp⟩]

/-- Schema of `matches` (non-id columns), from the CREATE TABLE statement. -/
def matchesSchema : List ColumnDef :=
  [⟨"match_description", .nullable⟩, ⟨"team1", .nullable⟩, ⟨"team2", .nullable⟩,
   ⟨"venue_name", .nullable⟩, ⟨"venue_city", .nullable⟩,
   ⟨"venue_country", .nullable⟩, ⟨"venue_capacity", .nullable⟩,
   ⟨"match_date", .nullable⟩, ⟨"match_format", .nullable⟩,
   ⟨"winning_team", .nullable⟩, ⟨"victory_margin", .nullable⟩,
   ⟨"victory_type", .nullable⟩, ⟨"toss_winner", .nullable⟩,
   ⟨"toss_decision", .nullable⟩, ⟨"created_at", .currentTimestamp⟩]

/-- Schema of `series` (non-id columns), from the CREATE TABLE statement. -/
def seriesSchema : List ColumnDef :=
  [⟨"series_name", .nullable⟩, ⟨"host_country", .nullable⟩,
   ⟨"match_type", .nullable⟩, ⟨"start_date", .nullable⟩,
   ⟨"total_matches", .nullable⟩, ⟨"created_at", .currentTimestamp⟩]

/-- Schema of `player_performances` (non-id columns), from the CREATE TABLE
statement. -/
def performancesSchema : List ColumnDef :=
  [⟨"player_id", .nullable⟩, ⟨"match_id", .nullable⟩,
   ⟨"runs_scored", .val (.int 0)⟩, ⟨"balls_faced", .val (.int 0)⟩,
   ⟨"strike_rate", .val (.real 0)⟩, ⟨"wickets_taken", .val (.int 0)⟩,
   ⟨"overs_bowled", .val (.real 0)⟩, ⟨"runs_conceded", .val (.int 0)⟩,
   ⟨"batting_position", .nullable⟩, ⟨"created_at", .currentTimestamp⟩]

def schemaOf : String → List ColumnDef
  | "players" => playersSchema
  | "matches" => matchesSchema
  | "series" => seriesSchema
  | "player_performances" => performancesSchema
  | _ => []

/-- Resolve each schema column of a freshly inserted row: the INSERT's value
if the column was supplied, its default otherwise (an error for a NOT NULL
column without default, i.e. `players.name`). -/
def buildRow (env : Env) (schema : List ColumnDef) (data : List (String × Val)) :
    Except DBErr (List (String × Val)) :=
  match schema with
  | [] => .ok []
  | cd :: rest =>
    match
      (match data.lookup cd.name with
       | some v => Except.ok v
       | none =>
         match cd.dflt with
         | .required => Except.error DBErr.err
         | .nullable => Except.ok Val.null
         | .val v => Except.ok v
         | .currentTimestamp => Except.ok (Val.str env.now)) with
    | .error e => .error e
    | .ok v =>
      match buildRow env rest data with
      | .error e => .error e
      | .ok tail => .ok ((cd.name, v) :: tail)

/-- One `INSERT INTO t (cols) VALUES (?, ..., ?)` executed with `vals`
bound to the placeholders.  Errors mirror SQLite: arity mismatch, an
unknown column, explicitly setting `id` (see header), or a missing NOT
NULL column.  Returns the updated table and `cursor.lastrowid`. -/
def insertValues (env : Env) (schema : List ColumnDef) (tb : Table)
    (cols : List String) (vals : List Val) : Except DBErr (Table × Int) :=
  if cols.length ≠ vals.length then .error .err
  else if cols.any (fun c => c = "id" || !((schema.map ColumnDef.name).contains c)) then
    .error .err
  else
    match buildRow env schema (cols.zip vals) with
    | .error e => .error e
    | .ok fields =>
      .ok (⟨tb.nextId + 1, tb.rows ++ [⟨tb.nextId, fields⟩]⟩, tb.nextId)

/-- `cursor.executemany` of one INSERT template over a list of value
tuples. -/
def insertMany (env : Env) (schema : List ColumnDef) (tb : Table)
    (cols : List String) (valsList : List (List Val)) : Except DBErr Table :=
  match valsList with
  | [] => .ok tb
  | vals :: rest =>
    match insertValues env schema tb cols vals with
    | .error e => .error e
    | .ok (tb2, _) => insertMany env schema tb2 cols rest

/-- `SELECT COUNT(*) FROM t`. -/
def countRows (s : DBState) (t : String) : Except DBErr Nat :=
  match lookupTable s t with
  | .error e => .error e
  | .ok tb => .ok tb.rows.length

/-- The SQL comparison `<field> = ?` with an integer parameter bound, as
used by the manual cascade deletes. -/
def fieldEqInt (r : Row) (k : String) (n : Int) : Bool :=
  match r.fields.lookup k with
  | some (.int m) => m == n
  | _ => false

def rowAssoc (r : Row) : List (String × Val) := ("id", Val.int r.id) :: r.fields

/-- Tabular result: ordered rows, each an ordered column-name/value list
(the DataFrame shape trimmed to what the properties inspect). -/
def Frame : Type := List (List (String × Val))

/-- The SQL statement shapes issued through `execute_query` by the
properties under verification. -/
inductive SQL where
  | selectAllById : String → Int → SQL   -- SELECT * FROM t WHERE id = ?
  | selectCount : String → SQL           -- SELECT COUNT(*) FROM t

def runSQL (s : DBState) : SQL → Except DBErr Frame
  | .selectAllById t i =>
    match lookupTable s t with
    | .error e => .error e
    | .ok tb => .ok ((tb.rows.filter (fun r => r.id == i)).map rowAssoc)
  | .selectCount t =>
    match countRows s t with
    | .error e => .error e
    | .ok n => .ok [[("COUNT(*)", Val.int n)]]

/-- `CREATE TABLE IF NOT EXISTS`: keep an existing table, otherwise create
it empty with the AUTOINCREMENT counter at 1. -/
def ensureTable (o : Option Table) : Option Table :=
  match o with
  | some tb => some tb
  | none => some ⟨1, []⟩

/-- The four CREATE TABLE IF NOT EXISTS statements of `init_database`. -/
def createTables (s : DBState) : DBState :=
  { players := ensureTable s.players,
    «matches» := ensureTable s.«matches»,
    series := ensureTable s.series,
    player_performances := ensureTable s.player_performances }

/-- Column list of the seeding INSERT into `players`. -/
def playersInsertCols : List String :=
  ["name", "country", "playing_role", "batting_style", "bowling_style",
   "total_runs", "batting_average", "centuries", "wickets_taken",
   "bowling_average", "economy_rate", "catches", "stumpings", "matches_played"]

/-- `sample_players` of `insert_sample_data` (15 tuples). -/
def sample_players : List (List Val) :=
  [[.str "Virat Kohli", .str "India", .str "Batsman", .str "Right-handed", .str "Right-arm medium", .int 12000, .real 52.5, .int 43, .int 0, .real 0.0, .real 0.0, .int 89, .int 0, .int 245],
   [.str "Rohit Sharma", .str "India", .str "Batsman", .str "Right-handed", .str "Right-arm off-break", .int 9500, .real 48.2, .int 31, .int 8, .real 35.2, .real 5.8, .int 67, .int 0, .int 227],
   [.str "MS Dhoni", .str "India", .str "Wicket-keeper", .str "Right-handed", .str "Right-arm medium", .int 10773, .real 50.57, .int 10, .int 0, .real 0.0, .real 0.0, .int 123, .int 38, .int 350],
   [.str "Ravindra Jadeja", .str "India", .str "All-rounder", .str "Left-handed", .str "Left-arm orthodox", .int 2635, .real 35.26, .int 0, .int 213, .real 24.63, .real 2.39, .int 78, .int 0, .int 168],
   [.str "Jasprit Bumrah", .str "India", .str "Bowler", .str "Right-handed", .str "Right-arm fast", .int 85, .real 8.50, .int 0, .int 128, .real 20.94, .real 4.63, .int 12, .int 0, .int 64],
   [.str "Steve Smith", .str "Australia", .str "Batsman", .str "Right-handed", .str "Right-arm leg-break", .int 8010, .real 61.61, .int 27, .int 17, .real 54.7, .real 3.2, .int 106, .int 0, .int 131],
   [.str "Joe Root", .str "England", .str "Batsman", .str "Right-handed", .str "Right-arm off-break", .int 9500, .real 50.26, .int 24, .int 24, .real 45.8, .real 3.1, .int 89, .int 0, .int 189],
   [.str "Kane Williamson", .str "New Zealand", .str "Batsman", .str "Right-handed", .str "Right-arm off-break", .int 7115, .real 54.31, .int 22, .int 8, .real 52.2, .real 3.4, .int 78, .int 0, .int 131],
   [.str "Babar Azam", .str "Pakistan", .str "Batsman", .str "Right-handed", .str "Right-arm medium", .int 4442, .real 45.37, .int 13, .int 0, .real 0.0, .real 0.0, .int 56, .int 0, .int 98],
   [.str "Shaheen Afridi", .str "Pakistan", .str "Bowler", .str "Left-handed", .str "Left-arm fast", .int 123, .real 12.3, .int 0, .int 89, .real 23.98, .real 4.82, .int 15, .int 0, .int 36],
   [.str "David Warner", .str "Australia", .str "Batsman", .str "Left-handed", .str "Right-arm leg-break", .int 5455, .real 45.45, .int 18, .int 3, .real 42.0, .real 4.5, .int 78, .int 0, .int 120],
   [.str "Pat Cummins", .str "Australia", .str "Bowler", .str "Right-handed", .str "Right-arm fast", .int 945, .real 18.9, .int 0, .int 188, .real 28.94, .real 2.8, .int 45, .int 0, .int 67],
   [.str "Ben Stokes", .str "England", .str "All-rounder", .str "Left-handed", .str "Right-arm fast-medium", .int 4890, .real 36.0, .int 11, .int 99, .real 32.26, .real 3.2, .int 89, .int 0, .int 136],
   [.str "Trent Boult", .str "New Zealand", .str "Bowler", .str "Left-handed", .str "Left-arm fast-medium", .int 234, .real 13.6, .int 0, .int 317, .real 27.49, .real 4.85, .int 56, .int 0, .int 78],
   [.str "Quinton de Kock", .str "South Africa", .str "Wicket-keeper", .str "Left-handed", .str "Right-arm medium", .int 5440, .real 44.0, .int 15, .int 0, .real 0.0, .real 0.0, .int 134, .int 23, .int 124]]

/-- Column list of the seeding INSERT into `matches`. -/
def matchesInsertCols : List String :=
  ["match_description", "team1", "team2", "venue_name", "venue_city",
   "venue_country", "venue_capacity", "match_date", "match_format",
   "winning_team", "victory_margin", "victory_type", "toss_winner", "toss_decision"]

/-- `sample_matches` of `insert_sample_data` (8 tuples). -/
def sample_matches : List (List Val) :=
  [[.str "India vs Australia, 1st ODI", .str "India", .str "Australia", .str "Wankhede Stadium", .str "Mumbai", .str "India", .int 33000, .str "2024-01-15", .str "ODI", .str "India", .int 36, .str "runs", .str "Australia", .str "bowl"],
   [.str "England vs New Zealand, T20I", .str "England", .str "New Zealand", .str "Lord's", .str "London", .str "England", .int 28000, .str "2024-02-20", .str "T20I", .str "New Zealand", .int 5, .str "wickets", .str "England", .str "bat"],
   [.str "Pakistan vs South Africa, Test", .str "Pakistan", .str "South Africa", .str "National Stadium", .str "Karachi", .str "Pakistan", .int 34000, .str "2024-03-10", .str "Test", .str "Pakistan", .int 7, .str "wickets", .str "Pakistan", .str "bat"],
   [.str "India vs England, 2nd ODI", .str "India", .str "England", .str "Eden Gardens", .str "Kolkata", .str "India", .int 66000, .str "2024-01-28", .str "ODI", .str "England", .int 8, .str "wickets", .str "India", .str "bat"],
   [.str "Australia vs West Indies, T20I", .str "Australia", .str "West Indies", .str "MCG", .str "Melbourne", .str "Australia", .int 100000, .str "2024-02-15", .str "T20I", .str "Australia", .int 42, .str "runs", .str "West Indies", .str "bowl"],
   [.str "India vs Pakistan, T20I", .str "India", .str "Pakistan", .str "Dubai International Stadium", .str "Dubai", .str "UAE", .int 25000, .str "2024-03-25", .str "T20I", .str "India", .int 6, .str "wickets", .str "Pakistan", .str "bat"],
   [.str "England vs Australia, Test", .str "England", .str "Australia", .str "The Oval", .str "London", .str "England", .int 27500, .str "2024-04-10", .str "Test", .str "Australia", .int 10, .str "wickets", .str "England", .str "bowl"],
   [.str "New Zealand vs South Africa, ODI", .str "New Zealand", .str "South Africa", .str "Eden Park", .str "Auckland", .str "New Zealand", .int 42000, .str "2024-04-20", .str "ODI", .str "New Zealand", .int 23, .str "runs", .str "South Africa", .str "bat"]]

/-- Column list of the seeding INSERT into `series`. -/
def seriesInsertCols : List String :=
  ["series_name", "host_country", "match_type", "start_date", "total_matches"]

/-- `sample_series` of `insert_sample_data` (5 tuples). -/
def sample_series : List (List Val) :=
  [[.str "India vs Australia ODI Series 2024", .str "India", .str "ODI", .str "2024-01-15", .int 5],
   [.str "England vs New Zealand T20 Series", .str "England", .str "T20I", .str "2024-02-18", .int 3],
   [.str "Pakistan vs South Africa Test Series", .str "Pakistan", .str "Test", .str "2024-03-08", .int 2],
   [.str "ICC T20 World Cup 2024", .str "West Indies", .str "T20I", .str "2024-06-01", .int 55],
   [.str "Asia Cup 2024", .str "Pakistan", .str "ODI", .str "2024-08-15", .int 13]]

/-- Column list of the seeding INSERT into `player_performances`. -/
def performancesInsertCols : List String :=
  ["player_id", "match_id", "runs_scored", "balls_faced", "strike_rate",
   "wickets_taken", "overs_bowled", "runs_conceded", "batting_position"]

/-- `sample_performances` of `insert_sample_data` (10 tuples). -/
def sample_performances : List (List Val) :=
  [[.int 1, .int 1, .int 85, .int 78, .real 108.97, .int 0, .real 0.0, .int 0, .int 1],
   [.int 2, .int 1, .int 124, .int 115, .real 107.83, .int 0, .real 0.0, .int 0, .int 2],
   [.int 5, .int 1, .int 8, .int 15, .real 53.33, .int 3, .real 8.5, .int 45, .int 11],
   [.int 1, .int 2, .int 45, .int 32, .real 140.63, .int 0, .real 0.0, .int 0, .int 3],
   [.int 7, .int 2, .int 67, .int 89, .real 75.28, .int 0, .real 0.0, .int 0, .int 4],
   [.int 13, .int 2, .int 23, .int 18, .real 127.78, .int 2, .real 3.2, .int 18, .int 6],
   [.int 6, .int 3, .int 178, .int 234, .real 76.07, .int 0, .real 0.0, .int 0, .int 1],
   [.int 8, .int 4, .int 89, .int 98, .real 90.82, .int 0, .real 0.0, .int 0, .int 2],
   [.int 9, .int 5, .int 78, .int 67, .real 116.42, .int 0, .real 0.0, .int 0, .int 3],
   [.int 10, .int 5, .int 12, .int 8, .real 150.0, .int 4, .real 4.0, .int 28, .int 9]]

/-- `executemany` of one seed INSERT against the named table of the
state. -/
def bulkInsert (env : Env) (s : DBState) (t : String) (cols : List String)
    (valsList : List (List Val)) : Except DBErr DBState :=
  match lookupTable s t with
  | .error e => .error e
  | .ok tb =>
    match insertMany env (schemaOf t) tb cols valsList with
    | .error e => .error e
    | .ok tb2 => .ok (setTable s t tb2)

/-- `DatabaseManager.insert_sample_data`: open a connection, count the
`players` rows, return unchanged if any exist, otherwise seed all four
tables and commit.  No try/except in the source: errors propagate. -/
def insert_sample_data (env : Env) (s : DBState) : Except DBErr DBState :=
  match connect env with
  | .error e => .error e
  | .ok _ =>
    match countRows s "players" with
    | .error e => .error e
    | .ok n =>
      if n > 0 then .ok s
      else
        match bulkInsert env s "players" playersInsertCols sample_players with
        | .error e => .error e
        | .ok s1 =>
          match bulkInsert env s1 "matches" matchesInsertCols sample_matches with
          | .error e => .error e
          | .ok s2 =>
            match bulkInsert env s2 "series" seriesInsertCols sample_series with
            | .error e => .error e
            | .ok s3 =>
              bulkInsert env s3 "player_performances" performancesInsertCols
                sample_performances

/-- `DatabaseManager.init_database`: create the four tables if absent,
commit, then run `insert_sample_data`.  No try/except in the source:
errors propagate to the caller. -/
def init_database (env : Env) (s : DBState) : Except DBErr DBState :=
  match connect env with
  | .error e => .error e
  | .ok _ => insert_sample_data env (createTables s)

/-- Body of `DatabaseManager.execute_query` before its try/except: connect
and run the statement (reads only: the result frame, state unchanged). -/
def execute_query_core (env : Env) (s : DBState) (q : SQL) : Except DBErr Frame :=
  match connect env with
  | .error e => .error e
  | .ok _ => runSQL s q

/-- `DatabaseManager.execute_query`: on any internal error, return an empty
DataFrame instead of raising.  The `Except` in the return type is the
raise channel visible to the caller; the catch makes it always `.ok`. -/
def execute_query (env : Env) (s : DBState) (q : SQL) :
    Except DBErr (DBState × Frame) :=
  match execute_query_core env s q with
  | .ok f => .ok (s, f)
  | .error _ => .ok (s, ([] : Frame))

/-- Body of `DatabaseManager.insert_record` before its try/except: build
the parameterized INSERT from the field map and execute it, returning
`cursor.lastrowid`. -/
def insert_record_core (env : Env) (s : DBState) (table : String)
    (data : List (String × Val)) : Except DBErr (DBState × Int) :=
  match connect env with
  | .error e => .error e
  | .ok _ =>
    match lookupTable s table with
    | .error e => .error e
    | .ok tb =>
      match insertValues env (schemaOf table) tb (data.map Prod.fst)
          (data.map Prod.snd) with
      | .error e => .error e
      | .ok (tb2, newId) => .ok (setTable s table tb2, newId)

/-- `DatabaseManager.insert_record`: returns the new id, or `none` on any
internal failure (never raises). -/
def insert_record (env : Env) (s : DBState) (table : String)
    (data : List (String × Val)) : Except DBErr (DBState × Option Int) :=
  match insert_record_core env s table data with
  | .ok (s2, newId) => .ok (s2, some newId)
  | .error _ => .ok (s, none)

/-- `UPDATE t SET k1 = ?, ... WHERE id = ?` applied to one row's fields:
each updated column takes its bound value, every other column is kept. -/
def applyUpdate (fields data : List (String × Val)) : List (String × Val) :=
  fields.map (fun kv =>
    match data.lookup kv.1 with
    | some v => (kv.1, v)
    | none => kv)

/-- Body of `DatabaseManager.update_record` before its try/except: build
the parameterized UPDATE and execute it, returning `cursor.rowcount`.
A key that is neither the `id` column nor one of the table's other
columns raises (no such column).  A field map may set `id` itself: the
source builds `SET id = ?` and SQLite executes it against the INTEGER
PRIMARY KEY (rowid alias) — the bound value must be an integer (other
storage classes raise a datatype mismatch; SQLite's numeric-text
coercion is not modelled), and moving a matched row onto an id already
held by another row, or updating two matched rows to one id, fails the
PRIMARY KEY constraint and raises. -/
def update_record_core (env : Env) (s : DBState) (table : String)
    (record_id : Int) (data : List (String × Val)) :
    Except DBErr (DBState × Nat) :=
  match connect env with
  | .error e => .error e
  | .ok _ =>
    match lookupTable s table with
    | .error e => .error e
    | .ok tb =>
      if data.any (fun kv =>
          !(kv.1 = "id" ||
            ((schemaOf table).map ColumnDef.name).contains kv.1)) then
        .error .err
      else
        match data.lookup "id" with
        | none =>
          .ok (setTable s table { tb with rows := tb.rows.map (fun r =>
              if r.id == record_id then
                { r with fields := applyUpdate r.fields data }
              else r) },
            tb.rows.countP (fun r => r.id == record_id))
        | some (Val.int n) =>
          if 2 ≤ tb.rows.countP (fun r => r.id == record_id) then
            .error .err
          else if n ≠ record_id ∧
              1 ≤ tb.rows.countP (fun r => r.id == record_id) ∧
              (tb.rows.any (fun r => !(r.id == record_id) && r.id == n)) =
                true then
            .error .err
          else
            .ok (setTable s table { tb with rows := tb.rows.map (fun r =>
                if r.id == record_id then ⟨n, applyUpdate r.fields data⟩
                else r) },
              tb.rows.countP (fun r => r.id == record_id))
        | some _ => .error .err

/-- `DatabaseManager.update_record`: returns rows affected, 0 on any
internal failure (never raises). -/
def update_record (env : Env) (s : DBState) (table : String) (record_id : Int)
    (data : List (String × Val)) : Except DBErr (DBState × Nat) :=
  match update_record_core env s table record_id data with
  | .ok r => .ok r
  | .error _ => .ok (s, 0)

/-- Body of `DatabaseManager.delete_record` before its try/except: the
manual cascade (performances referencing a deleted player or match go
first), then the main `DELETE FROM t WHERE id = ?`, whose
`cursor.rowcount` is returned. -/
def delete_record_core (env : Env) (s : DBState) (table : String)
    (record_id : Int) : Except DBErr (DBState × Nat) :=
  match connect env with
  | .error e => .error e
  | .ok _ =>
    match
      (if table = "players" then
        match lookupTable s "player_performances" with
        | .error e => .error e
        | .ok pp =>
          .ok (setTable s "player_performances"
            { pp with rows := pp.rows.filter (fun r => !(fieldEqInt r "player_id" record_id)) })
      else if table = "matches" then
        match lookupTable s "player_performances" with
        | .error e => .error e
        | .ok pp =>
          .ok (setTable s "player_performances"
            { pp with rows := pp.rows.filter (fun r => !(fieldEqInt r "match_id" record_id)) })
      else Except.ok s) with
    | .error e => .error e
    | .ok s1 =>
      match lookupTable s1 table with
      | .error e => .error e
      | .ok tb =>
        let cnt := tb.rows.countP (fun r => r.id == record_id)
        .ok (setTable s1 table
          { tb with rows := tb.rows.filter (fun r => !(r.id == record_id)) }, cnt)

/-- `DatabaseManager.delete_record`: returns rows affected by the main
delete, 0 on any internal failure (never raises). -/
def delete_record (env : Env) (s : DBState) (table : String) (record_id : Int) :
    Except DBErr (DBState × Nat) :=
  match delete_record_core env s table record_id with
  | .ok r => .ok r
  | .error _ => .ok (s, 0)

/-- Body of `DatabaseManager.get_table_stats` before its try/except: one
COUNT query per table, in the source's fixed order. -/
def get_table_stats_core (env : Env) (s : DBState) :
    Except DBErr (List (String × Nat)) :=
  match connect env with
  | .error e => .error e
  | .ok _ =>
    match countRows s "players" with
    | .error e => .error e
    | .ok np =>
      match countRows s "matches" with
      | .error e => .error e
      | .ok nm =>
        match countRows s "series" with
        | .error e => .error e
        | .ok ns =>
          match countRows s "player_performances" with
          | .error e => .error e
          | .ok npp =>
            .ok [("players", np), ("matches", nm), ("series", ns),
                 ("player_performances", npp)]

/-- `DatabaseManager.get_table_stats`: name-to-row-count mapping, empty on
any internal failure (never raises). -/
def get_table_stats (env : Env) (s : DBState) :
    Except DBErr (List (String × Nat)) :=
  match get_table_stats_core env s with
  | .ok stats => .ok stats
  | .error _ => .ok []

/-- `DROP TABLE IF EXISTS` for each of the four tables, in the source's
order (performances, matches, series, players). -/
def dropAllTables (s : DBState) : DBState :=
  let s1 := { s with player_performances := none }
  let s2 := { s1 with «matches» := none }
  let s3 := { s2 with series := none }
  { s3 with players := none }

/-- Body of `DatabaseManager.reset_database` before its try/except: drop
all four tables, commit, then `init_database` (recreate and reseed). -/
def reset_database_core (env : Env) (s : DBState) : Except DBErr DBState :=
  match connect env with
  | .error e => .error e
  | .ok _ => init_database env (dropAllTables s)

/-- `DatabaseManager.reset_database`: `true` on success, `false` if any
step raised (never raises itself). -/
def reset_database (env : Env) (s : DBState) : Except DBErr (DBState × Bool) :=
  match reset_database_core env s with
  | .ok s2 => .ok (s2, true)
  | .error _ => .ok (s, false)

/-- `', '.join(...)` as used when building the CRUD SQL strings. -/
def joinComma : List String → String
  | [] => ""
  | [x] => x
  | x :: rest => x ++ ", " ++ joinComma rest

/-- The SQL text `insert_record` builds:
`f"INSERT INTO {table} ({columns}) VALUES ({placeholders})"` with
`columns = ', '.join(data.keys())` and one `?` per field. -/
def insert_sql (table : String) (data : List (String × Val)) : String :=
  "INSERT INTO " ++ table ++ " (" ++ joinComma (data.map Prod.fst) ++
    ") VALUES (" ++ joinComma (data.map (fun _ => "?")) ++ ")"

/-- The parameter tuple `insert_record` binds: `list(data.values())`. -/
def insert_params (data : List (String × Val)) : List Val := data.map Prod.snd

/-- The SQL text `update_record` builds:
`f"UPDATE {table} SET {set_clause} WHERE id = ?"` with
`set_clause = ', '.join(f"{key} = ?" ...)`. -/
def update_sql (table : String) (data : List (String × Val)) : String :=
  "UPDATE " ++ table ++ " SET " ++
    joinComma (data.map (fun kv => kv.1 ++ " = ?")) ++ " WHERE id = ?"

/-- The parameter tuple `update_record` binds:
`list(data.values()) + [record_id]`. -/
def update_params (data : List (String × Val)) (record_id : Int) : List Val :=
  data.map Prod.snd ++ [Val.int record_id]

/-!
Query Catalog (`utils/sql_queries.py`, class `SQLQueries`).

Each registered query method is a constructor of `QueryId`; the registry
dictionaries become association lists in insertion order, and Python's
`dict.update` is modelled exactly (overwrite existing keys in place,
append new keys in order).
-/

/-- The query methods `SQLQueries` defines and registers.  The numbering
follows the method names: `query_15` through `query_18` do not exist in
the source. -/
inductive QueryId where
  | q1 | q2 | q3 | q4 | q5 | q6 | q7 | q8
  | q9 | q10 | q11 | q12 | q13 | q14 | q19 | q20
  | q21 | q22 | q23 | q24 | q25
deriving DecidableEq

/-- The dictionary literal returned for `difficulty == "Beginner"`. -/
def beginnerQueries : List (String × QueryId) :=
  [("Q1: All Players from India", .q1),
   ("Q2: Recent Matches (Last 30 Days)", .q2),
   ("Q3: Top 10 Run Scorers", .q3),
   ("Q4: Large Venues (50,000+ Capacity)", .q4),
   ("Q5: Team Win Statistics", .q5),
   ("Q6: Players by Role", .q6),
   ("Q7: Highest Scores by Format", .q7),
   ("Q8: Cricket Series Starting in 2024", .q8)]

/-- The dictionary literal returned for `difficulty == "Intermediate"`. -/
def intermediateQueries : List (String × QueryId) :=
  [("Q9: Elite All-Rounders", .q9),
   ("Q10: Last 20 Completed Matches", .q10),
   ("Q11: Multi-Format Player Performance", .q11),
   ("Q12: Home vs Away Performance", .q12),
   ("Q13: Century Partnerships", .q13),
   ("Q14: Most Economical Bowlers", .q14),
   ("Q19: Most Consistent Batsmen", .q19),
   ("Q20: Multi-Format Experience", .q20)]

/-- The dictionary literal returned for `difficulty == "Advanced"`. -/
def advancedQueries : List (String × QueryId) :=
  [("Q21: Performance Ranking System", .q21),
   ("Q22: Head-to-Head Team Analysis", .q22),
   ("Q23: Recent Player Form Analysis", .q23),
   ("Q24: Successful Batting Partnerships", .q24),
   ("Q25: Career Trajectory Analysis", .q25)]

/-- Python `dict.update`: existing keys are overwritten in place, new keys
appended in the incoming order. -/
def dictUpdate (m new : List (String × QueryId)) : List (String × QueryId) :=
  m.map (fun kv =>
    match new.lookup kv.1 with
    | some v => (kv.1, v)
    | none => kv) ++
  new.filter (fun kv => (m.lookup kv.1).isNone)

/-- `SQLQueries.get_all_queries`: an empty dict updated with the
"Beginner", "Intermediate" and "Advanced" registries in that order (the
source obtains each via `get_queries_by_difficulty`, whose first three
branches return exactly these dictionary literals). -/
def get_all_queries : List (String × QueryId) :=
  dictUpdate (dictUpdate (dictUpdate [] beginnerQueries) intermediateQueries)
    advancedQueries

/-- `SQLQueries.get_queries_by_difficulty`: the tier's registry for the
three known difficulty strings, and the whole catalog for anything else
(the source's `else` branch returns `self.get_all_queries()`). -/
def get_queries_by_difficulty (difficulty : String) : List (String × QueryId) :=
  if difficulty = "Beginner" then beginnerQueries
  else if difficulty = "Intermediate" then intermediateQueries
  else if difficulty = "Advanced" then advancedQueries
  else get_all_queries

/-- "Raised an exception to the caller" made visible: an operation raises
exactly when its result is `.error`. -/
def isOkE {α : Type} (e : Except DBErr α) : Bool :=
  match e with
  | .ok _ => true
  | .error _ => false

/-- A field map the CRUD UI may legitimately pass for the given table:
distinct keys, every key a non-id column of the table's schema, and every
NOT NULL column without a default supplied. -/
def ValidFieldMap (table : String) (data : List (String × Val)) : Prop :=
  (data.map Prod.fst).Nodup ∧
  (∀ kv ∈ data, kv.1 ≠ "id" ∧ kv.1 ∈ (schemaOf table).map ColumnDef.name) ∧
  (∀ cd ∈ schemaOf table, cd.dflt = Dflt.required → (data.lookup cd.name).isSome)

/-- Number of `?` placeholder markers in a piece of SQL text. -/
def countQ (s : String) : Nat := s.data.count '?'

theorem rowsOr_ensureTable (o : Option Table) :
    rowsOr (ensureTable o) = rowsOr o := by
  cases o <;> rfl

theorem dropAllTables_eq (s : DBState) : dropAllTables s = emptyState := by
  cases s; rfl

/-- C1: the Query Catalog is claimed to hold exactly 25 statements
(Beginner 8, Intermediate 8, Advanced 9).  Evaluating the registry shows
21 entries: Beginner 8, Intermediate 8, Advanced 5 — the methods
`query_15` through `query_18` do not exist, although the source's own
docstrings promise "all 25 assignment questions".  The union /
disjointness part of the claim does hold for the 21 registered labels. -/
theorem catalog_holds_21_not_25 :
    get_all_queries.length = 21 ∧
    (get_queries_by_difficulty "Beginner").length = 8 ∧
    (get_queries_by_difficulty "Intermediate").length = 8 ∧
    (get_queries_by_difficulty "Advanced").length = 5 ∧
    get_all_queries =
      get_queries_by_difficulty "Beginner" ++
        get_queries_by_difficulty "Intermediate" ++
        get_queries_by_difficulty "Advanced" ∧
    (get_all_queries.map Prod.fst).Nodup := by
  refine ⟨?_, ?_, ?_, ?_, ?_, ?_⟩ <;> decide

/-- C10: for any difficulty string other than "Beginner", "Intermediate"
and "Advanced", `get_queries_by_difficulty` falls through to its `else`
branch and returns the whole catalog, exactly `get_all_queries()`. -/
theorem unknown_difficulty_returns_whole_catalog (d : String)
    (h1 : d ≠ "Beginner") (h2 : d ≠ "Intermediate") (h3 : d ≠ "Advanced") :
    get_queries_by_difficulty d = get_all_queries := by
  unfold get_queries_by_difficulty
  simp [h1, h2, h3]

theorem unknown_difficulty_returns_whole_catalog_witness :
    ("Expert" : String) ≠ "Beginner" ∧
    get_queries_by_difficulty "Expert" = get_all_queries :=
  ⟨by decide,
   unknown_difficulty_returns_whole_catalog "Expert" (by decide) (by decide)
     (by decide)⟩

/-- C2 (amended): the six wrapped Data Access Layer operations —
`execute_query`, `insert_record`, `update_record`, `delete_record`,
`get_table_stats` and `reset_database` — never raise to their caller: for
every environment (including one whose connections fail), storage state
and input, each returns `.ok` with its safe empty/zero/false value on
internal failure.  (`init_database` is excluded: see the
counterexample.) -/
theorem wrapped_operations_never_raise (env : Env) (s : DBState) (q : SQL)
    (t : String) (d : List (String × Val)) (rid : Int) :
    isOkE (execute_query env s q) = true ∧
    isOkE (insert_record env s t d) = true ∧
    isOkE (update_record env s t rid d) = true ∧
    isOkE (delete_record env s t rid) = true ∧
    isOkE (get_table_stats env s) = true ∧
    isOkE (reset_database env s) = true := by
  refine ⟨?_, ?_, ?_, ?_, ?_, ?_⟩
  · unfold execute_query; cases execute_query_core env s q <;> rfl
  · unfold insert_record; cases insert_record_core env s t d <;> rfl
  · unfold update_record; cases update_record_core env s t rid d <;> rfl
  · unfold delete_record; cases delete_record_core env s t rid <;> rfl
  · unfold get_table_stats; cases get_table_stats_core env s <;> rfl
  · unfold reset_database; cases reset_database_core env s <;> rfl

theorem wrapped_operations_never_raise_witness :
    isOkE (execute_query ⟨false, ""⟩ emptyState (.selectCount "players")) =
      true ∧
    isOkE (reset_database ⟨false, ""⟩ emptyState) = true :=
  ⟨(wrapped_operations_never_raise ⟨false, ""⟩ emptyState
      (.selectCount "players") "players" [] 1).1,
   (wrapped_operations_never_raise ⟨false, ""⟩ emptyState
      (.selectCount "players") "players" [] 1).2.2.2.2.2⟩

/-- C2 counterexample: `init_database` (the spec's `initialize()`) has no
exception handler in the source; when the connection fails it raises to
its caller instead of returning a safe value, refuting the claim that
every public operation never raises. -/
theorem init_database_raises_on_connect_failure :
    init_database ⟨false, ""⟩ emptyState = .error .err := rfl

/-- C3: seed gating.  If the Player table is non-empty before
`init_database()` runs, the call only performs the idempotent CREATE
TABLE IF NOT EXISTS statements: the single `SELECT COUNT(*) FROM players`
gate stops seeding, so no seed rows are inserted into any of the four
tables (each existing table keeps exactly its rows; absent tables are
created empty). -/
theorem seed_gating (env : Env) (s : DBState) (tb : Table)
    (henv : env.connectOk = true) (hp : s.players = some tb)
    (hne : tb.rows ≠ []) :
    init_database env s = .ok (createTables s) ∧
    (createTables s).players = some tb ∧
    rowsOr (createTables s).«matches» = rowsOr s.«matches» ∧
    rowsOr (createTables s).series = rowsOr s.series ∧
    rowsOr (createTables s).player_performances =
      rowsOr s.player_performances := by
  have hcp : (createTables s).players = some tb := by
    simp [createTables, ensureTable, hp]
  have hcount : countRows (createTables s) "players" = .ok tb.rows.length := by
    unfold countRows
    simp [lookupTable, hcp]
  have hpos : 0 < tb.rows.length := List.length_pos.mpr hne
  refine ⟨?_, hcp, ?_, ?_, ?_⟩
  · unfold init_database
    simp only [connect, henv, if_true]
    unfold insert_sample_data
    simp only [connect, henv, if_true, hcount]
    simp [hpos]
  · exact rowsOr_ensureTable _
  · exact rowsOr_ensureTable _
  · exact rowsOr_ensureTable _

theorem seed_gating_witness :
    (⟨true, "T"⟩ : Env).connectOk = true ∧
    (⟨some ⟨2, [⟨1, []⟩]⟩, none, none, none⟩ : DBState).players =
      some ⟨2, [⟨1, []⟩]⟩ ∧
    (⟨2, [⟨1, []⟩]⟩ : Table).rows ≠ [] ∧
    init_database ⟨true, "T"⟩ ⟨some ⟨2, [⟨1, []⟩]⟩, none, none, none⟩ =
      .ok (createTables ⟨some ⟨2, [⟨1, []⟩]⟩, none, none, none⟩) :=
  ⟨rfl, rfl, by decide,
   (seed_gating ⟨true, "T"⟩ ⟨some ⟨2, [⟨1, []⟩]⟩, none, none, none⟩
      ⟨2, [⟨1, []⟩]⟩ rfl rfl (by decide)).1⟩

set_option maxHeartbeats 2000000 in
/-- C4: initialize is idempotent with respect to seeding.  Starting from
an empty store, two consecutive `init_database()` calls leave the same
Player row count as one call (the second call's count gate sees the 15
seeded players and inserts nothing). -/
theorem initialize_idempotent_from_empty (env : Env)
    (h : env.connectOk = true) :
    ∃ s1 s2, init_database env emptyState = .ok s1 ∧
      init_database env s1 = .ok s2 ∧
      (rowsOr s2.players).length = (rowsOr s1.players).length ∧
      (rowsOr s1.players).length = 15 := by
  obtain ⟨ok, now⟩ := env
  cases h
  exact ⟨_, _, rfl, rfl, rfl, rfl⟩

set_option maxHeartbeats 2000000 in
theorem initialize_idempotent_from_empty_witness :
    (⟨true, "T"⟩ : Env).connectOk = true ∧
    ∃ s1 s2, init_database ⟨true, "T"⟩ emptyState = .ok s1 ∧
      init_database ⟨true, "T"⟩ s1 = .ok s2 ∧
      (rowsOr s2.players).length = (rowsOr s1.players).length ∧
      (rowsOr s1.players).length = 15 :=
  ⟨rfl, initialize_idempotent_from_empty ⟨true, "T"⟩ rfl⟩

set_option maxHeartbeats 2000000 in
/-- C8: reset restores the baseline.  From every starting storage state, a
successful `reset_database()` (all four tables dropped, then
`init_database()` recreates and reseeds) leaves table statistics equal to
the fixed seed counts: 15 players, 8 matches, 5 series, 10 player
performances. -/
theorem reset_restores_baseline (env : Env) (s : DBState)
    (h : env.connectOk = true) :
    ∃ s2, reset_database env s = .ok (s2, true) ∧
      get_table_stats env s2 =
        .ok [("players", 15), ("matches", 8), ("series", 5),
             ("player_performances", 10)] := by
  obtain ⟨ok, now⟩ := env
  cases h
  have hr : reset_database_core ⟨true, now⟩ s =
      init_database ⟨true, now⟩ emptyState := by
    unfold reset_database_core
    rw [dropAllTables_eq s]
    rfl
  exact ⟨_, by unfold reset_database; rw [hr]; rfl, by rfl⟩

set_option maxHeartbeats 2000000 in
theorem reset_restores_baseline_witness :
    (⟨true, "T"⟩ : Env).connectOk = true ∧
    ∃ s2, reset_database ⟨true, "T"⟩ emptyState = .ok (s2, true) ∧
      get_table_stats ⟨true, "T"⟩ s2 =
        .ok [("players", 15), ("matches", 8), ("series", 5),
             ("player_performances", 10)] :=
  ⟨rfl, reset_restores_baseline ⟨true, "T"⟩ emptyState rfl⟩

theorem map_update_preserves_others (rows : List Row) (p : Row → Row)
    (rid : Int) (hp : ∀ r, (r.id == rid) = false → p r = r)
    (i : Nat) (h2 : i < (rows.map p).length) (h1 : i < rows.length)
    (hne : (rows.get ⟨i, h1⟩).id ≠ rid) :
    (rows.map p).get ⟨i, h2⟩ = rows.get ⟨i, h1⟩ := by
  simp only [List.get_eq_getElem, List.getElem_map]
  exact hp _ (beq_eq_false_iff_ne.mpr hne)

/-- C7: update frame property.  For every id and field map (including one
that sets the id column itself, which the source turns into `SET id = ?`
and SQLite executes against the rowid alias),
`update_record("players", id, field_map)` modifies only the row whose id
column equals the given id: the other three tables are untouched, the
players row list keeps its length, and every row whose id differs from
the target — in particular its total_runs — is unchanged afterwards
(this also covers every internal-failure branch, where the state is
returned unmodified). -/
theorem update_affects_only_target_row (env : Env) (s : DBState) (rid : Int)
    (data : List (String × Val)) :
    ∃ s2 n, update_record env s "players" rid data = .ok (s2, n) ∧
      s2.«matches» = s.«matches» ∧ s2.series = s.series ∧
      s2.player_performances = s.player_performances ∧
      (rowsOr s2.players).length = (rowsOr s.players).length ∧
      ∀ i, ∀ h2 : i < (rowsOr s2.players).length,
        ∀ h1 : i < (rowsOr s.players).length,
        ((rowsOr s.players).get ⟨i, h1⟩).id ≠ rid →
          (rowsOr s2.players).get ⟨i, h2⟩ =
            (rowsOr s.players).get ⟨i, h1⟩ := by
  obtain ⟨pl, mt, se, pp⟩ := s
  by_cases henv : env.connectOk = true
  case neg =>
    have hw : update_record env ⟨pl, mt, se, pp⟩ "players" rid data =
        .ok (⟨pl, mt, se, pp⟩, 0) := by
      unfold update_record update_record_core
      rw [show connect env = .error .err from by simp [connect, henv]]
    exact ⟨_, _, hw, rfl, rfl, rfl, rfl, fun i h2 h1 _ => rfl⟩
  have hc : connect env = .ok () := by simp [connect, henv]
  cases pl with
  | none =>
    have hw : update_record env ⟨none, mt, se, pp⟩ "players" rid data =
        .ok (⟨none, mt, se, pp⟩, 0) := by
      unfold update_record update_record_core
      rw [hc]
      rfl
    exact ⟨_, _, hw, rfl, rfl, rfl, rfl, fun i h2 h1 _ => rfl⟩
  | some tb =>
    by_cases hbad : (data.any (fun kv =>
        !(kv.1 = "id" ||
          ((schemaOf "players").map ColumnDef.name).contains kv.1))) = true
    · have hw : update_record env ⟨some tb, mt, se, pp⟩ "players" rid data =
          .ok (⟨some tb, mt, se, pp⟩, 0) := by
        unfold update_record update_record_core
        rw [hc, hbad]
        rfl
      exact ⟨_, _, hw, rfl, rfl, rfl, rfl, fun i h2 h1 _ => rfl⟩
    · rw [Bool.not_eq_true] at hbad
      cases hid : data.lookup "id" with
      | none =>
        have hw : update_record env ⟨some tb, mt, se, pp⟩ "players" rid
            data =
            .ok (setTable ⟨some tb, mt, se, pp⟩ "players"
              { tb with rows := tb.rows.map (fun r =>
                  if r.id == rid then
                    { r with fields := applyUpdate r.fields data }
                  else r) },
              tb.rows.countP (fun r => r.id == rid)) := by
          unfold update_record update_record_core
          rw [hc, hbad, hid]
          rfl
        refine ⟨_, _, hw, rfl, rfl, rfl, by simp [setTable, rowsOr], ?_⟩
        intro i h2 h1 hne
        simp only [setTable, rowsOr] at h2 ⊢
        exact map_update_preserves_others tb.rows _ rid
          (fun r hr => by simp [hr]) i h2 h1 hne
      | some v =>
        cases v with
        | int n =>
          have hstep : update_record env ⟨some tb, mt, se, pp⟩ "players" rid
              data =
              (match (if 2 ≤ tb.rows.countP (fun r => r.id == rid) then
                  (Except.error DBErr.err : Except DBErr (DBState × Nat))
                else if n ≠ rid ∧
                    1 ≤ tb.rows.countP (fun r => r.id == rid) ∧
                    (tb.rows.any (fun r => !(r.id == rid) && r.id == n)) =
                      true then
                  Except.error DBErr.err
                else
                  Except.ok (setTable ⟨some tb, mt, se, pp⟩ "players"
                    { tb with rows := tb.rows.map (fun r =>
                        if r.id == rid then ⟨n, applyUpdate r.fields data⟩
                        else r) },
                    tb.rows.countP (fun r => r.id == rid))) with
               | Except.ok r => Except.ok r
               | Except.error _ => Except.ok (⟨some tb, mt, se, pp⟩, 0)) := by
            unfold update_record update_record_core
            rw [hc, hbad, hid]
            rfl
          rw [hstep]
          by_cases hc2 : 2 ≤ tb.rows.countP (fun r => r.id == rid)
          · rw [if_pos hc2]
            exact ⟨_, _, rfl, rfl, rfl, rfl, rfl, fun i h2 h1 _ => rfl⟩
          · rw [if_neg hc2]
            by_cases hcol : (n ≠ rid ∧
                1 ≤ tb.rows.countP (fun r => r.id == rid) ∧
                (tb.rows.any (fun r => !(r.id == rid) && r.id == n)) = true)
            · rw [if_pos hcol]
              exact ⟨_, _, rfl, rfl, rfl, rfl, rfl, fun i h2 h1 _ => rfl⟩
            · rw [if_neg hcol]
              refine ⟨_, _, rfl, rfl, rfl, rfl,
                by simp [setTable, rowsOr], ?_⟩
              intro i h2 h1 hne
              simp only [setTable, rowsOr] at h2 ⊢
              exact map_update_preserves_others tb.rows _ rid
                (fun r hr => by simp [hr]) i h2 h1 hne
        | real q =>
          have hw : update_record env ⟨some tb, mt, se, pp⟩ "players" rid
              data = .ok (⟨some tb, mt, se, pp⟩, 0) := by
            unfold update_record update_record_core
            rw [hc, hbad, hid]
            rfl
          exact ⟨_, _, hw, rfl, rfl, rfl, rfl, fun i h2 h1 _ => rfl⟩
        | str t2 =>
          have hw : update_record env ⟨some tb, mt, se, pp⟩ "players" rid
              data = .ok (⟨some tb, mt, se, pp⟩, 0) := by
            unfold update_record update_record_core
            rw [hc, hbad, hid]
            rfl
          exact ⟨_, _, hw, rfl, rfl, rfl, rfl, fun i h2 h1 _ => rfl⟩
        | null =>
          have hw : update_record env ⟨some tb, mt, se, pp⟩ "players" rid
              data = .ok (⟨some tb, mt, se, pp⟩, 0) := by
            unfold update_record update_record_core
            rw [hc, hbad, hid]
            rfl
          exact ⟨_, _, hw, rfl, rfl, rfl, rfl, fun i h2 h1 _ => rfl⟩

/-- C6: delete cascade.  For every record id, `delete_record` on
"players" (resp. "matches") first removes every PlayerPerformance row
whose player_id (resp. match_id) equals the id, then removes the target
row, returning the primary delete's row count; afterwards no
PlayerPerformance row references that id. -/
theorem delete_cascades_to_performances (env : Env) (s : DBState) (rid : Int)
    (tbp tbm pp : Table)
    (henv : env.connectOk = true) (hpl : s.players = some tbp)
    (hmt : s.«matches» = some tbm) (hpp : s.player_performances = some pp) :
    (∃ s2, delete_record env s "players" rid =
        .ok (s2, tbp.rows.countP (fun r => r.id == rid)) ∧
      rowsOr s2.player_performances =
        pp.rows.filter (fun r => !(fieldEqInt r "player_id" rid)) ∧
      rowsOr s2.players = tbp.rows.filter (fun r => !(r.id == rid)) ∧
      ∀ r ∈ rowsOr s2.player_performances,
        fieldEqInt r "player_id" rid = false) ∧
    (∃ s3, delete_record env s "matches" rid =
        .ok (s3, tbm.rows.countP (fun r => r.id == rid)) ∧
      rowsOr s3.player_performances =
        pp.rows.filter (fun r => !(fieldEqInt r "match_id" rid)) ∧
      rowsOr s3.«matches» = tbm.rows.filter (fun r => !(r.id == rid)) ∧
      ∀ r ∈ rowsOr s3.player_performances,
        fieldEqInt r "match_id" rid = false) := by
  obtain ⟨pl, mt, se, ppf⟩ := s
  cases hpl
  cases hmt
  cases hpp
  have hc : connect env = .ok () := by simp [connect, henv]
  constructor
  · refine ⟨⟨some ⟨tbp.nextId, tbp.rows.filter (fun r => !(r.id == rid))⟩,
      some tbm, se,
      some ⟨pp.nextId,
        pp.rows.filter (fun r => !(fieldEqInt r "player_id" rid))⟩⟩,
      ?_, rfl, rfl, ?_⟩
    · unfold delete_record delete_record_core
      rw [hc]
      rfl
    · intro r hr
      have h2 := (List.mem_filter.mp hr).2
      simpa using h2
  · refine ⟨⟨some tbp,
      some ⟨tbm.nextId, tbm.rows.filter (fun r => !(r.id == rid))⟩, se,
      some ⟨pp.nextId,
        pp.rows.filter (fun r => !(fieldEqInt r "match_id" rid))⟩⟩,
      ?_, rfl, rfl, ?_⟩
    · unfold delete_record delete_record_core
      rw [hc]
      rfl
    · intro r hr
      have h2 := (List.mem_filter.mp hr).2
      simpa using h2

theorem delete_cascades_to_performances_witness :
    (⟨true, "T"⟩ : Env).connectOk = true ∧
    ((∃ s2, delete_record ⟨true, "T"⟩
        ⟨some ⟨2, [⟨1, [("name", Val.str "A")]⟩]⟩, some ⟨1, []⟩, none,
         some ⟨3, [⟨1, [("player_id", Val.int 1), ("match_id", Val.int 2)]⟩,
                   ⟨2, [("player_id", Val.int 2), ("match_id", Val.int 1)]⟩]⟩⟩
        "players" 1 =
        .ok (s2, (⟨2, [⟨1, [("name", Val.str "A")]⟩]⟩ : Table).rows.countP
          (fun r => r.id == 1)) ∧
      rowsOr s2.player_performances =
        (⟨3, [⟨1, [("player_id", Val.int 1), ("match_id", Val.int 2)]⟩,
              ⟨2, [("player_id", Val.int 2), ("match_id", Val.int 1)]⟩]⟩ :
           Table).rows.filter (fun r => !(fieldEqInt r "player_id" 1)) ∧
      rowsOr s2.players = (⟨2, [⟨1, [("name", Val.str "A")]⟩]⟩ :
          Table).rows.filter (fun r => !(r.id == 1)) ∧
      ∀ r ∈ rowsOr s2.player_performances,
        fieldEqInt r "player_id" 1 = false) ∧
    (∃ s3, delete_record ⟨true, "T"⟩
        ⟨some ⟨2, [⟨1, [("name", Val.str "A")]⟩]⟩, some ⟨1, []⟩, none,
         some ⟨3, [⟨1, [("player_id", Val.int 1), ("match_id", Val.int 2)]⟩,
                   ⟨2, [("player_id", Val.int 2), ("match_id", Val.int 1)]⟩]⟩⟩
        "matches" 1 =
        .ok (s3, (⟨1, []⟩ : Table).rows.countP (fun r => r.id == 1)) ∧
      rowsOr s3.player_performances =
        (⟨3, [⟨1, [("player_id", Val.int 1), ("match_id", Val.int 2)]⟩,
              ⟨2, [("player_id", Val.int 2), ("match_id", Val.int 1)]⟩]⟩ :
           Table).rows.filter (fun r => !(fieldEqInt r "match_id" 1)) ∧
      rowsOr s3.«matches» = (⟨1, []⟩ : Table).rows.filter
        (fun r => !(r.id == 1)) ∧
      ∀ r ∈ rowsOr s3.player_performances,
        fieldEqInt r "match_id" 1 = false)) :=
  ⟨rfl, delete_cascades_to_performances ⟨true, "T"⟩
    ⟨some ⟨2, [⟨1, [("name", Val.str "A")]⟩]⟩, some ⟨1, []⟩, none,
     some ⟨3, [⟨1, [("player_id", Val.int 1), ("match_id", Val.int 2)]⟩,
               ⟨2, [("player_id", Val.int 2), ("match_id", Val.int 1)]⟩]⟩⟩
    1 ⟨2, [⟨1, [("name", Val.str "A")]⟩]⟩ ⟨1, []⟩
    ⟨3, [⟨1, [("player_id", Val.int 1), ("match_id", Val.int 2)]⟩,
         ⟨2, [("player_id", Val.int 2), ("match_id", Val.int 1)]⟩]⟩
    rfl rfl rfl rfl⟩

theorem zip_proj_eq (l : List (String × Val)) :
    (l.map Prod.fst).zip (l.map Prod.snd) = l := by
  induction l with
  | nil => rfl
  | cons a t ih => simp [ih]

theorem lookup_of_mem_nodup {l : List (String × Val)} {k : String} {v : Val}
    (hm : (k, v) ∈ l) (hn : (l.map Prod.fst).Nodup) : l.lookup k = some v := by
  induction l with
  | nil => cases hm
  | cons a t ih =>
    obtain ⟨k1, v1⟩ := a
    rcases List.mem_cons.mp hm with h | h
    · cases h
      simp [List.lookup]
    · have hk : k ≠ k1 := by
        intro he
        have hmem : k ∈ t.map Prod.fst := List.mem_map.mpr ⟨(k, v), h, rfl⟩
        rw [he] at hmem
        exact (List.nodup_cons.mp hn).1 hmem
      have hk2 : (k == k1) = false := by
        exact beq_eq_false_iff_ne.mpr hk
      simp [List.lookup, hk2]
      exact ih h (List.nodup_cons.mp hn).2

theorem lookupTable_setTable_self (s : DBState) (t : String) (tb : Table)
    (ht : t = "players" ∨ t = "matches" ∨ t = "series" ∨
      t = "player_performances") :
    lookupTable (setTable s t tb) t = .ok tb := by
  rcases ht with h | h | h | h <;> subst h <;> rfl

theorem filter_id_eq_nil_of_lt (rows : List Row) (n : Int)
    (h : ∀ r ∈ rows, r.id < n) :
    rows.filter (fun r => r.id == n) = [] := by
  induction rows with
  | nil => rfl
  | cons r t ih =>
    have h1 : (r.id == n) = false :=
      beq_eq_false_iff_ne.mpr (Int.ne_of_lt (h r (List.mem_cons_self r t)))
    simp [List.filter, h1]
    intro r2 hr2
    exact Int.ne_of_lt (h r2 (List.mem_cons_of_mem r hr2))

theorem buildRow_ok (env : Env) (schema : List ColumnDef)
    (data : List (String × Val))
    (h : ∀ cd ∈ schema, cd.dflt = Dflt.required →
      (data.lookup cd.name).isSome) :
    ∃ fields, buildRow env schema data = .ok fields ∧
      fields.map Prod.fst = schema.map ColumnDef.name ∧
      ∀ k v, data.lookup k = some v → k ∈ schema.map ColumnDef.name →
        fields.lookup k = some v := by
  induction schema with
  | nil => exact ⟨[], rfl, rfl, by simp⟩
  | cons cd rest ih =>
    obtain ⟨tail, htl, hmap, hlkt⟩ :=
      ih (fun c hc hd => h c (List.mem_cons_of_mem cd hc) hd)
    have step : buildRow env (cd :: rest) data =
        (match (match data.lookup cd.name with
           | some v => Except.ok v
           | none =>
             match cd.dflt with
             | .required => Except.error DBErr.err
             | .nullable => Except.ok Val.null
             | .val v => Except.ok v
             | .currentTimestamp => Except.ok (Val.str env.now)) with
         | .error e => .error e
         | .ok v =>
           match buildRow env rest data with
           | .error e => .error e
           | .ok tail => .ok ((cd.name, v) :: tail)) := rfl
    cases hl : data.lookup cd.name with
    | some v0 =>
      refine ⟨(cd.name, v0) :: tail, ?_, by simp [hmap], ?_⟩
      · rw [step, hl, htl]
      · intro k v hk hm
        by_cases hek : k = cd.name
        · subst hek
          rw [hl] at hk
          cases hk
          simp [List.lookup]
        · have hb : (k == cd.name) = false := beq_eq_false_iff_ne.mpr hek
          simp [List.lookup, hb]
          exact hlkt k v hk (by
            rcases List.mem_cons.mp hm with h1 | h1
            · exact absurd h1 hek
            · exact h1)
    | none =>
      have hval : cd.dflt ≠ Dflt.required →
          ∃ fields, buildRow env (cd :: rest) data = .ok fields ∧
            fields.map Prod.fst = (cd :: rest).map ColumnDef.name ∧
            ∀ k v, data.lookup k = some v →
              k ∈ (cd :: rest).map ColumnDef.name →
              fields.lookup k = some v := by
        intro hne
        have hres : ∃ v1, (match cd.dflt with
            | Dflt.required => Except.error DBErr.err
            | Dflt.nullable => Except.ok Val.null
            | Dflt.val v => Except.ok v
            | Dflt.currentTimestamp => Except.ok (Val.str env.now)) =
            Except.ok v1 := by
          cases hd : cd.dflt with
          | required => exact absurd hd hne
          | nullable => exact ⟨Val.null, rfl⟩
          | val v => exact ⟨v, rfl⟩
          | currentTimestamp => exact ⟨Val.str env.now, rfl⟩
        obtain ⟨v1, hv1⟩ := hres
        refine ⟨(cd.name, v1) :: tail, ?_, by simp [hmap], ?_⟩
        · rw [step, hl, hv1, htl]
        · intro k v hk hm
          by_cases hek : k = cd.name
          · subst hek
            rw [hl] at hk
            cases hk
          · have hb : (k == cd.name) = false := beq_eq_false_iff_ne.mpr hek
            simp [List.lookup, hb]
            exact hlkt k v hk (by
              rcases List.mem_cons.mp hm with h1 | h1
              · exact absurd h1 hek
              · exact h1)
      cases hd : cd.dflt with
      | required =>
        have := h cd (List.mem_cons_self cd rest) hd
        rw [hl] at this
        cases this
      | nullable => exact hval (by rw [hd]; intro hx; cases hx)
      | val v => exact hval (by rw [hd]; intro hx; cases hx)
      | currentTimestamp =>
        exact hval (by rw [hd]; intro hx; cases hx)

/-- C5: insert round-trip.  For every valid field map and each of the four
tables, `insert_record` returns the new AUTOINCREMENT id, and a
`SELECT * FROM t WHERE id = <id>` through `execute_query` returns exactly
one row whose values agree with the field map on every supplied field. -/
theorem insert_round_trip (env : Env) (s : DBState) (table : String)
    (data : List (String × Val)) (tb : Table)
    (henv : env.connectOk = true)
    (ht : table = "players" ∨ table = "matches" ∨ table = "series" ∨
      table = "player_performances")
    (hlk : lookupTable s table = .ok tb)
    (hinv : ∀ r ∈ tb.rows, r.id < tb.nextId)
    (hv : ValidFieldMap table data) :
    ∃ s2 fields, insert_record env s table data = .ok (s2, some tb.nextId) ∧
      execute_query env s2 (.selectAllById table tb.nextId) =
        .ok (s2, [("id", Val.int tb.nextId) :: fields]) ∧
      ∀ kv ∈ data, fields.lookup kv.1 = some kv.2 := by
  obtain ⟨hnd, hcols, hreq⟩ := hv
  have hc : connect env = .ok () := by simp [connect, henv]
  obtain ⟨fields, hbeq, hmap, hlkf⟩ :=
    buildRow_ok env (schemaOf table) data hreq
  have hany : ((data.map Prod.fst).any (fun c =>
      c = "id" || !(((schemaOf table).map ColumnDef.name).contains c))) =
      false := by
    rw [List.any_eq_false]
    intro c hcm
    obtain ⟨kv, hkv, hkc⟩ := List.mem_map.mp hcm
    obtain ⟨hne, hmem⟩ := hcols kv hkv
    subst hkc
    simp [hne]
    obtain ⟨cd, hcd, heq⟩ := List.mem_map.mp hmem
    exact ⟨cd, hcd, heq⟩
  have hiv : insertValues env (schemaOf table) tb (data.map Prod.fst)
      (data.map Prod.snd) =
      .ok (⟨tb.nextId + 1, tb.rows ++ [⟨tb.nextId, fields⟩]⟩, tb.nextId) := by
    unfold insertValues
    rw [if_neg (by simp)]
    rw [hany]
    simp only [Bool.false_eq_true, if_false]
    rw [zip_proj_eq, hbeq]
  have hins : insert_record env s table data =
      .ok (setTable s table ⟨tb.nextId + 1, tb.rows ++ [⟨tb.nextId, fields⟩]⟩,
        some tb.nextId) := by
    unfold insert_record insert_record_core
    rw [hc, hlk]
    show (match (match insertValues env (schemaOf table) tb
        (data.map Prod.fst) (data.map Prod.snd) with
      | Except.error e => Except.error e
      | Except.ok (tb2, newId) => Except.ok (setTable s table tb2, newId)) with
      | Except.ok (s2, newId) => Except.ok (s2, some newId)
      | Except.error _ => Except.ok (s, none)) = _
    rw [hiv]
  have hlk2 : lookupTable (setTable s table
      ⟨tb.nextId + 1, tb.rows ++ [⟨tb.nextId, fields⟩]⟩) table =
      .ok ⟨tb.nextId + 1, tb.rows ++ [⟨tb.nextId, fields⟩]⟩ :=
    lookupTable_setTable_self s table _ ht
  have hfil : (tb.rows ++ [(⟨tb.nextId, fields⟩ : Row)]).filter
      (fun r : Row => r.id == tb.nextId) = [(⟨tb.nextId, fields⟩ : Row)] := by
    rw [List.filter_append, filter_id_eq_nil_of_lt tb.rows tb.nextId hinv]
    simp
  have hrun : runSQL (setTable s table
      ⟨tb.nextId + 1, tb.rows ++ [⟨tb.nextId, fields⟩]⟩)
      (.selectAllById table tb.nextId) =
      .ok [("id", Val.int tb.nextId) :: fields] := by
    unfold runSQL
    show (match lookupTable (setTable s table ⟨tb.nextId + 1,
        tb.rows ++ [(⟨tb.nextId, fields⟩ : Row)]⟩) table with
      | Except.error e => Except.error e
      | Except.ok tb2 => Except.ok (List.map rowAssoc
          (List.filter (fun r => r.id == tb.nextId) tb2.rows))) = _
    rw [hlk2]
    show Except.ok (List.map rowAssoc
      (List.filter (fun r : Row => r.id == tb.nextId)
        (tb.rows ++ [(⟨tb.nextId, fields⟩ : Row)]))) = _
    rw [hfil]
    rfl
  have hexe : execute_query env (setTable s table
      ⟨tb.nextId + 1, tb.rows ++ [⟨tb.nextId, fields⟩]⟩)
      (.selectAllById table tb.nextId) =
      .ok (setTable s table ⟨tb.nextId + 1, tb.rows ++ [⟨tb.nextId, fields⟩]⟩,
        [("id", Val.int tb.nextId) :: fields]) := by
    unfold execute_query execute_query_core
    rw [hc, hrun]
  refine ⟨_, fields, hins, hexe, ?_⟩
  intro kv hkv
  have hdl : data.lookup kv.1 = some kv.2 := lookup_of_mem_nodup hkv hnd
  exact hlkf kv.1 kv.2 hdl (hcols kv hkv).2

theorem insert_round_trip_witness :
    ValidFieldMap "players"
      [("name", Val.str "Test Player"), ("country", Val.str "India"),
       ("playing_role", Val.str "Batsman"), ("total_runs", Val.int 500)] ∧
    (∃ s2 fields, insert_record ⟨true, "T"⟩
        ⟨some ⟨1, []⟩, none, none, none⟩ "players"
        [("name", Val.str "Test Player"), ("country", Val.str "India"),
         ("playing_role", Val.str "Batsman"), ("total_runs", Val.int 500)] =
        .ok (s2, some (⟨1, []⟩ : Table).nextId) ∧
      execute_query ⟨true, "T"⟩ s2
        (.selectAllById "players" (⟨1, []⟩ : Table).nextId) =
        .ok (s2, [("id", Val.int (⟨1, []⟩ : Table).nextId) :: fields]) ∧
      ∀ kv ∈ [("name", Val.str "Test Player"), ("country", Val.str "India"),
         ("playing_role", Val.str "Batsman"), ("total_runs", Val.int 500)],
        fields.lookup kv.1 = some kv.2) :=
  ⟨by unfold ValidFieldMap; decide,
   insert_round_trip ⟨true, "T"⟩ ⟨some ⟨1, []⟩, none, none, none⟩ "players"
     [("name", Val.str "Test Player"), ("country", Val.str "India"),
      ("playing_role", Val.str "Batsman"), ("total_runs", Val.int 500)]
     ⟨1, []⟩ rfl (Or.inl rfl) rfl (by decide)
     (by unfold ValidFieldMap; decide)⟩

theorem countQ_append (a b : String) :
    countQ (a ++ b) = countQ a + countQ b := by
  simp [countQ, String.data_append, List.count_append]

theorem countQ_zero_of_not_mem (x : String) (h : ('?' : Char) ∉ x.data) :
    countQ x = 0 :=
  List.count_eq_zero.mpr h

theorem countQ_join_placeholders (l : List (String × Val)) :
    countQ (joinComma (l.map (fun _ => "?"))) = l.length := by
  induction l with
  | nil => rfl
  | cons a t ih =>
    cases t with
    | nil => rfl
    | cons b t2 =>
      rw [show joinComma ((a :: b :: t2).map (fun _ => "?")) =
          "?" ++ ", " ++ joinComma ((b :: t2).map (fun _ => "?")) from rfl]
      rw [countQ_append, countQ_append, ih]
      simp [countQ]
      omega

theorem countQ_join_keys (l : List (String × Val))
    (h : ∀ kv ∈ l, ('?' : Char) ∉ kv.1.data) :
    countQ (joinComma (l.map Prod.fst)) = 0 := by
  induction l with
  | nil => rfl
  | cons a t ih =>
    cases t with
    | nil =>
      exact countQ_zero_of_not_mem a.1 (h a (List.mem_cons_self a []))
    | cons b t2 =>
      rw [show joinComma ((a :: b :: t2).map Prod.fst) =
          a.1 ++ ", " ++ joinComma ((b :: t2).map Prod.fst) from rfl]
      rw [countQ_append, countQ_append,
        countQ_zero_of_not_mem a.1 (h a (List.mem_cons_self a (b :: t2))),
        ih (fun kv hkv => h kv (List.mem_cons_of_mem a hkv))]
      rfl

theorem countQ_join_setpairs (l : List (String × Val))
    (h : ∀ kv ∈ l, ('?' : Char) ∉ kv.1.data) :
    countQ (joinComma (l.map (fun kv => kv.1 ++ " = ?"))) = l.length := by
  induction l with
  | nil => rfl
  | cons a t ih =>
    have ha : countQ (a.1 ++ " = ?") = 1 := by
      rw [countQ_append,
        countQ_zero_of_not_mem a.1 (h a (List.mem_cons_self a t))]
      rfl
    cases t with
    | nil => exact ha
    | cons b t2 =>
      rw [show joinComma ((a :: b :: t2).map (fun kv => kv.1 ++ " = ?")) =
          (a.1 ++ " = ?") ++ ", " ++
            joinComma ((b :: t2).map (fun kv => kv.1 ++ " = ?")) from rfl]
      rw [countQ_append, countQ_append, ha,
        ih (fun kv hkv => h kv (List.mem_cons_of_mem a hkv))]
      simp [countQ]
      omega

/-- C9: the CRUD primitives are parameterized.  The SQL text built by
`insert_record` and `update_record` depends only on the table name and
the field map's keys — replacing every value leaves the text unchanged —
and carries exactly one `?` placeholder per field (plus one for the
WHERE id of the UPDATE), while the caller-supplied values travel only in
the bound parameter tuple. -/
theorem crud_sql_is_parameterized (table : String)
    (data data2 : List (String × Val)) (record_id : Int)
    (hk : data.map Prod.fst = data2.map Prod.fst)
    (htq : ('?' : Char) ∉ table.data)
    (hkq : ∀ kv ∈ data, ('?' : Char) ∉ kv.1.data) :
    insert_sql table data = insert_sql table data2 ∧
    update_sql table data = update_sql table data2 ∧
    countQ (insert_sql table data) = data.length ∧
    countQ (update_sql table data) = data.length + 1 ∧
    insert_params data = data.map Prod.snd ∧
    update_params data record_id = data.map Prod.snd ++ [Val.int record_id] := by
  have hph : data.map (fun _ => "?") = data2.map (fun _ => "?") := by
    have h1 : data.map (fun _ => "?") =
        (data.map Prod.fst).map (fun _ => "?") := by
      rw [List.map_map]
      rfl
    have h2 : data2.map (fun _ => "?") =
        (data2.map Prod.fst).map (fun _ => "?") := by
      rw [List.map_map]
      rfl
    rw [h1, h2, hk]
  have hsp : data.map (fun kv => kv.1 ++ " = ?") =
      data2.map (fun kv => kv.1 ++ " = ?") := by
    have h1 : data.map (fun kv : String × Val => kv.1 ++ " = ?") =
        (data.map Prod.fst).map (fun k => k ++ " = ?") := by
      rw [List.map_map]
      rfl
    have h2 : data2.map (fun kv : String × Val => kv.1 ++ " = ?") =
        (data2.map Prod.fst).map (fun k => k ++ " = ?") := by
      rw [List.map_map]
      rfl
    rw [h1, h2, hk]
  refine ⟨?_, ?_, ?_, ?_, rfl, rfl⟩
  · unfold insert_sql
    rw [hk, hph]
  · unfold update_sql
    rw [hsp]
  · unfold insert_sql
    simp only [countQ_append]
    rw [countQ_zero_of_not_mem table htq, countQ_join_keys data hkq,
      countQ_join_placeholders data]
    simp [countQ]
  · unfold update_sql
    simp only [countQ_append]
    rw [countQ_zero_of_not_mem table htq, countQ_join_setpairs data hkq]
    simp [countQ]

theorem crud_sql_is_parameterized_witness :
    insert_sql "players" [("name", Val.str "x); DROP TABLE players; --")] =
      insert_sql "players" [("name", Val.null)] ∧
    update_sql "players" [("name", Val.str "x); DROP TABLE players; --")] =
      update_sql "players" [("name", Val.null)] ∧
    countQ (insert_sql "players"
      [("name", Val.str "x); DROP TABLE players; --")]) =
      [("name", Val.str "x); DROP TABLE players; --")].length ∧
    countQ (update_sql "players"
      [("name", Val.str "x); DROP TABLE players; --")]) =
      [("name", Val.str "x); DROP TABLE players; --")].length + 1 ∧
    insert_params [("name", Val.str "x); DROP TABLE players; --")] =
      [("name", Val.str "x); DROP TABLE players; --")].map Prod.snd ∧
    update_params [("name", Val.str "x); DROP TABLE players; --")] 7 =
      [("name", Val.str "x); DROP TABLE players; --")].map Prod.snd ++
        [Val.int 7] :=
  crud_sql_is_parameterized "players"
    [("name", Val.str "x); DROP TABLE players; --")] [("name", Val.null)] 7
    rfl (by decide) (by decide)
